import Mathlib

/-!
Shallow embedding of `src/homework.py` (a fitness-tracker module: a base
`Training` class, three concrete disciplines, an `InfoMessage` report and a
`read_package` factory).

Python floats are modelled as exact rationals (`ℚ`).  Operations that can
raise a Python exception (`ZeroDivisionError`, `NotImplementedError`,
`TypeError`, `ValueError`) return `Except PyErr _`; `read_package`, whose
error path also prints, returns a `ReadOutcome` recording both the raised
exception and the lines printed before it.
-/

/-- The Python exceptions the module can raise. -/
inductive PyErr where
  | valueError (msg : String)
  | typeError
  | zeroDivisionError
  | notImplementedError
deriving DecidableEq, Repr

/-- The dynamic class of a training object: the base class `Training` or one
of its three subclasses. -/
inductive Kind where
  | base
  | running
  | sportsWalking
  | swimming
deriving DecidableEq, Repr

/-- A training object.  The record carries every attribute any of the four
classes can have; attributes a given class never sets (e.g. `height_cm` on
`Running`) are stored as `0` and never read on that class. -/
structure Training where
  kind : Kind
  action : ℚ
  duration_m : ℚ
  weight_kg : ℚ
  height_cm : ℚ
  length_pool : ℚ
  count_pool : ℚ
deriving DecidableEq, Repr

/-- `Training.M_IN_KM`. -/
def M_IN_KM : ℚ := 1000

/-- `Training.MIN_IN_HOUR`. -/
def MIN_IN_HOUR : ℚ := 60

/-- The class attribute `LEN_STEP`: `0.65` on `Training` (inherited by
`Running` and `SportsWalking`), overridden to `1.38` on `Swimming`. -/
def Training.LEN_STEP (t : Training) : ℚ :=
  match t.kind with
  | .swimming => 1.38
  | _ => 0.65

/-- `Training.get_distance` (and `Swimming.get_distance`, whose body is the
same expression; `self.LEN_STEP` resolves per dynamic class). -/
def Training.get_distance (t : Training) : ℚ :=
  t.action * t.LEN_STEP / M_IN_KM

/-- `Training.get_mean_speed`, overridden by `Swimming.get_mean_speed`.
A zero duration makes Python's `/` raise `ZeroDivisionError`. -/
def Training.get_mean_speed (t : Training) : Except PyErr ℚ :=
  match t.kind with
  | .swimming =>
      if t.duration_m = 0 then .error .zeroDivisionError
      else .ok (t.length_pool * t.count_pool / M_IN_KM / t.duration_m)
  | _ =>
      if t.duration_m = 0 then .error .zeroDivisionError
      else .ok (t.get_distance / t.duration_m)

/-- `get_spent_calories`: `raise NotImplementedError` on the base class;
each subclass supplies its formula.  `Running` uses the class constants
`VAL_CALORIE_CALC_18 = 18` and `VAL_CALORIE_CALC_20 = 20`; `SportsWalking`
uses `0.035` and `0.029` and Python's float floor-division `//` (which
raises `ZeroDivisionError` on a zero divisor); `Swimming` uses `1.1` and
`2`. -/
def Training.get_spent_calories (t : Training) : Except PyErr ℚ :=
  match t.kind with
  | .base => .error .notImplementedError
  | .running => do
      let s ← t.get_mean_speed
      pure ((18 * s - 20) * t.weight_kg / M_IN_KM * t.duration_m * MIN_IN_HOUR)
  | .sportsWalking => do
      let s ← t.get_mean_speed
      if t.height_cm = 0 then .error .zeroDivisionError
      else
        pure ((0.035 * t.weight_kg
            + ((Int.floor (s ^ 2 / t.height_cm) : ℤ) : ℚ) * 0.029 * t.weight_kg)
            * t.duration_m * MIN_IN_HOUR)
  | .swimming => do
      let s ← t.get_mean_speed
      pure ((s + 1.1) * 2 * t.weight_kg)

/-- `self.__class__.__name__`. -/
def className : Kind → String
  | .base => "Training"
  | .running => "Running"
  | .sportsWalking => "SportsWalking"
  | .swimming => "Swimming"

/-- The `InfoMessage` dataclass. -/
structure InfoMessage where
  training_type : String
  duration : ℚ
  distance : ℚ
  speed : ℚ
  calories : ℚ
deriving DecidableEq, Repr

/-- `Training.show_training_info`: builds the `InfoMessage` from the class
name, the duration and the three computed metrics, evaluating the
constructor arguments left to right as Python does. -/
def Training.show_training_info (t : Training) : Except PyErr InfoMessage := do
  let dist := t.get_distance
  let s ← t.get_mean_speed
  let cal ← t.get_spent_calories
  pure ⟨className t.kind, t.duration_m, dist, s, cal⟩

/-! ### `InfoMessage.get_message`: rendering with `:.3f` fields

Python's `"… :.3f …".format` prints each number with exactly three digits
after the decimal point, rounding half to even.  We build that formatting
from scratch: `round_half_even`, decimal digit characters, and `fmt3`. -/

/-- Round a rational to the nearest integer, ties to the even integer
(the rounding Python's fixed-point formatting applies). -/
def round_half_even (x : ℚ) : ℤ :=
  let n := Int.floor x
  let f := x - (n : ℚ)
  if f < 1 / 2 then n
  else if 1 / 2 < f then n + 1
  else if n % 2 = 0 then n else n + 1

/-- The decimal digit character for `n < 10` (total, clamping at `9`). -/
def digitChar : Nat → Char
  | 0 => '0' | 1 => '1' | 2 => '2' | 3 => '3' | 4 => '4'
  | 5 => '5' | 6 => '6' | 7 => '7' | 8 => '8' | _ => '9'

/-- Decimal digits of `n`, most significant first; fuel-driven so the kernel
can evaluate it (`fuel ≥ n` always suffices). -/
def natCharsAux : Nat → Nat → List Char
  | 0, _ => []
  | _ + 1, 0 => []
  | fuel + 1, n + 1 =>
      natCharsAux fuel ((n + 1) / 10) ++ [digitChar ((n + 1) % 10)]

/-- Decimal rendering of a natural number. -/
def natChars (n : Nat) : String :=
  if n = 0 then "0" else String.mk (natCharsAux n n)

/-- The last three decimal digits of `k`, zero-padded to width three. -/
def pad3 (k : Nat) : String :=
  String.mk [digitChar (k / 100 % 10), digitChar (k / 10 % 10), digitChar (k % 10)]

/-- Python's `"{:.3f}".format` on a (rational-modelled) float: round the
value times `1000` half-to-even and print it with exactly three digits after
the point. -/
def fmt3 (q : ℚ) : String :=
  let m := round_half_even (q * 1000)
  let k := m.natAbs
  (if m < 0 then "-" else "") ++ natChars (k / 1000) ++ "." ++ pad3 (k % 1000)

/-- `InfoMessage.get_message`: `LINE_OUTPUT.format(...)` with the module's
actual (Russian-label) template. -/
def InfoMessage.get_message (m : InfoMessage) : String :=
  "Тип тренировки: " ++ m.training_type
    ++ "; Длительность: " ++ fmt3 m.duration
    ++ " ч.; Дистанция: " ++ fmt3 m.distance
    ++ " км; Ср. скорость: " ++ fmt3 m.speed
    ++ " км/ч; Потрачено ккал: " ++ fmt3 m.calories ++ "."

/-- Modelled from the spec, for comparison with `InfoMessage.get_message`:
the render template exactly as §4.2 of the spec words it
("Training type: …; Duration: … h; Distance: … km; Mean speed: … km/h;
Calories burned: ….", four `:.3f` fields). -/
def render_spec (m : InfoMessage) : String :=
  "Training type: " ++ m.training_type
    ++ "; Duration: " ++ fmt3 m.duration
    ++ " h; Distance: " ++ fmt3 m.distance
    ++ " km; Mean speed: " ++ fmt3 m.speed
    ++ " km/h; Calories burned: " ++ fmt3 m.calories ++ "."

/-! ### The factory `read_package` -/

/-- The module-level `TRANING_TYPE` dict, in insertion order. -/
def TRANING_TYPE : List (String × Kind) :=
  [("SWM", .swimming), ("RUN", .running), ("WLK", .sportsWalking)]

/-- The number of positional parameters each class's `__init__` takes. -/
def arity : Kind → Nat
  | .base => 3
  | .running => 3
  | .sportsWalking => 4
  | .swimming => 5

/-- Calling a class constructor on a positional argument list
(`cls(*data)`): `none` models the `TypeError` Python raises when the
argument count does not match the `__init__` arity. -/
def construct : Kind → List ℚ → Option Training
  | .base, [a, d, w] => some ⟨.base, a, d, w, 0, 0, 0⟩
  | .running, [a, d, w] => some ⟨.running, a, d, w, 0, 0, 0⟩
  | .sportsWalking, [a, d, w, h] => some ⟨.sportsWalking, a, d, w, h, 0, 0⟩
  | .swimming, [a, d, w, lp, cp] => some ⟨.swimming, a, d, w, 0, lp, cp⟩
  | _, _ => none

/-- The observable outcome of `read_package`: either an uncaught exception
or a returned session, in both cases together with the lines printed on the
way (the arity-mismatch path prints before re-raising). -/
inductive ReadOutcome where
  | raised (e : PyErr) (printed : List String)
  | ok (t : Training) (printed : List String)
deriving DecidableEq, Repr

/-- `read_package`: an unknown tag raises `ValueError` with a message built
from the tag and the joined dict keys; a known tag first *tries* the
constructor — on `TypeError` it prints a generic message and falls through —
and then unconditionally calls the constructor again for the return value,
so a wrong arity ends in a printed line followed by an uncaught
`TypeError`. -/
def read_package (workout_type : String) (data : List ℚ) : ReadOutcome :=
  match TRANING_TYPE.lookup workout_type with
  | none =>
      .raised (.valueError ("Не верный тип тренировки: " ++ workout_type
        ++ ". Допустимые значения: "
        ++ String.intercalate ", " (TRANING_TYPE.map Prod.fst) ++ " ")) []
  | some k =>
      match construct k data with
      | none => .raised .typeError ["Число параметров класса задано не верно "]
      | some t => .ok t []

/-! ### Helper lemmas -/

theorem exceptBindOk (a : α) (f : α → Except ε β) : (Except.ok a >>= f) = f a := rfl

theorem exceptBindError (e : ε) (f : α → Except ε β) :
    (Except.error e >>= f) = Except.error e := rfl

theorem exceptMapError (g : α → β) (e : ε) :
    (g <$> (Except.error e : Except ε α)) = Except.error e := rfl

theorem exceptPureEqOk (a : α) : (pure a : Except ε α) = Except.ok a := rfl

theorem digitChar_ne_dot (n : Nat) : digitChar n ≠ '.' := by
  unfold digitChar
  split <;> decide

theorem natCharsAux_not_dot : ∀ (fuel n : Nat), '.' ∉ natCharsAux fuel n := by
  intro fuel
  induction fuel with
  | zero => intro n; simp [natCharsAux]
  | succ f ih =>
      intro n
      cases n with
      | zero => simp [natCharsAux]
      | succ m =>
          simp only [natCharsAux, List.mem_append, List.mem_singleton]
          rintro (h | h)
          · exact ih _ h
          · exact (digitChar_ne_dot _) h.symm

theorem natChars_not_dot (n : Nat) : '.' ∉ (natChars n).data := by
  unfold natChars
  split
  · decide
  · exact natCharsAux_not_dot n n

theorem pad3_length (k : Nat) : (pad3 k).length = 3 := rfl

theorem pad3_not_dot (k : Nat) : '.' ∉ (pad3 k).data := by
  show '.' ∉ [digitChar (k / 100 % 10), digitChar (k / 10 % 10), digitChar (k % 10)]
  simp only [List.mem_cons, List.not_mem_nil, or_false]
  push_neg
  exact ⟨(digitChar_ne_dot _).symm, (digitChar_ne_dot _).symm, (digitChar_ne_dot _).symm⟩

/-- A string of the shape `intpart.dddd` with exactly three characters after
the single decimal point. -/
def hasThreeDecimals (x : String) : Prop :=
  ∃ a b : String, x = a ++ "." ++ b ∧ b.length = 3 ∧ '.' ∉ a.data ∧ '.' ∉ b.data

theorem fmt3_hasThreeDecimals (q : ℚ) : hasThreeDecimals (fmt3 q) := by
  refine ⟨(if round_half_even (q * 1000) < 0 then "-" else "")
      ++ natChars ((round_half_even (q * 1000)).natAbs / 1000),
    pad3 ((round_half_even (q * 1000)).natAbs % 1000), rfl, pad3_length _, ?_, pad3_not_dot _⟩
  rw [String.data_append]
  intro h
  rcases List.mem_append.mp h with h | h
  · split at h
    · exact absurd h (by decide)
    · exact absurd h (by decide)
  · exact natChars_not_dot _ h

theorem round_half_even_intCast (n : ℤ) : round_half_even (n : ℚ) = n := by
  unfold round_half_even
  simp [Int.floor_intCast]

/-- `fmt3` after the (exact) scaling by 1000 has been carried out. -/
def fmt3Int (m : ℤ) : String :=
  (if m < 0 then "-" else "") ++ natChars (m.natAbs / 1000) ++ "." ++ pad3 (m.natAbs % 1000)

theorem fmt3_ofInt (q : ℚ) (n : ℤ) (h : q * 1000 = (n : ℚ)) : fmt3 q = fmt3Int n := by
  unfold fmt3 fmt3Int
  rw [h, round_half_even_intCast]

/-! ### Claim theorems -/

/-- C1 (evidence of the code defect): on a parameter-count mismatch —
`read_package("RUN", [15000, 1])`, two values where `Running` takes three —
the code does not fail with a parameter-count-mismatch error naming the
discipline and the expected count; it catches the first `TypeError`, prints
the generic message (naming neither discipline nor count), and then calls
the constructor again with the same wrong arity, so a bare `TypeError`
escapes after the print. -/
theorem read_package_wrong_arity_behavior :
    read_package "RUN" [15000, 1]
      = .raised .typeError ["Число параметров класса задано не верно "] := by
  decide

/-- C2: every `SportsWalking` session's calories equal
`(0.035·w + ⌊meanSpeed² / height⌋·0.029·w)·duration·60`, the inner division
being floor division; and the `WLK [9000, 1, 75, 180]` scenario yields mean
speed 5.85 km/h, a floor step of 0 and exactly 157.500 kcal. -/
theorem sportsWalking_calories_formula :
    (∀ (t : Training) (s : ℚ), t.kind = .sportsWalking → t.get_mean_speed = .ok s →
      t.height_cm ≠ 0 →
      t.get_spent_calories = .ok ((0.035 * t.weight_kg
        + ((⌊s ^ 2 / t.height_cm⌋ : ℤ) : ℚ) * 0.029 * t.weight_kg) * t.duration_m * 60)) ∧
    read_package "WLK" [9000, 1, 75, 180] = .ok ⟨.sportsWalking, 9000, 1, 75, 180, 0, 0⟩ [] ∧
    Training.get_mean_speed ⟨.sportsWalking, 9000, 1, 75, 180, 0, 0⟩ = .ok 5.85 ∧
    (⌊(5.85 : ℚ) ^ 2 / 180⌋ : ℤ) = 0 ∧
    Training.get_spent_calories ⟨.sportsWalking, 9000, 1, 75, 180, 0, 0⟩ = .ok 157.5 := by
  refine ⟨?_, by decide, ?_, ?_, ?_⟩
  · intro t s hk hs hh
    simp [Training.get_spent_calories, hk, hs, hh, M_IN_KM, MIN_IN_HOUR,
      exceptBindOk, exceptPureEqOk]
  · simp [Training.get_mean_speed, Training.get_distance, Training.LEN_STEP, M_IN_KM]
    norm_num
  · rw [Int.floor_eq_iff]; norm_num
  · have hfloor : Int.floor ((((9000 : ℚ) * 0.65 / 1000 / 1) ^ 2 / 180)) = 0 := by
      rw [Int.floor_eq_iff]; norm_num
    simp [Training.get_spent_calories, Training.get_mean_speed, Training.get_distance,
      Training.LEN_STEP, M_IN_KM, MIN_IN_HOUR, exceptBindOk, exceptPureEqOk]
    norm_num [hfloor]

/-- C2 witness: the formula part of `sportsWalking_calories_formula` applied
to the concrete `WLK [9000, 1, 75, 180]` session. -/
theorem sportsWalking_calories_formula_witness :
    Training.get_spent_calories ⟨.sportsWalking, 9000, 1, 75, 180, 0, 0⟩
      = .ok ((0.035 * 75 + ((⌊(5.85 : ℚ) ^ 2 / 180⌋ : ℤ) : ℚ) * 0.029 * 75) * 1 * 60) :=
  sportsWalking_calories_formula.1 ⟨.sportsWalking, 9000, 1, 75, 180, 0, 0⟩ 5.85 rfl
    (by simp [Training.get_mean_speed, Training.get_distance, Training.LEN_STEP, M_IN_KM]
        norm_num)
    (by norm_num)

/-- C3 counterexample: `create("RUN", [15000, 1, 75])` yields 699.75 kcal,
not the 692.55 kcal the claim states. -/
theorem running_calories_not_692_55 :
    read_package "RUN" [15000, 1, 75] = .ok ⟨.running, 15000, 1, 75, 0, 0, 0⟩ [] ∧
    Training.get_spent_calories ⟨.running, 15000, 1, 75, 0, 0, 0⟩ = .ok 699.75 ∧
    (Except.ok (699.75 : ℚ) : Except PyErr ℚ) ≠ .ok 692.55 := by
  refine ⟨by decide, ?_, by simp; norm_num⟩
  simp [Training.get_spent_calories, Training.get_mean_speed, Training.get_distance,
    Training.LEN_STEP, M_IN_KM, MIN_IN_HOUR, exceptBindOk, exceptPureEqOk]
  norm_num

/-- C3 (amended): every `Running` session's calories equal
`(18·meanSpeed − 20)·w/1000·duration·60`; the `RUN [15000, 1, 75]` scenario
yields distance 9.750 km, mean speed 9.750 km/h and 699.75 kcal. -/
theorem running_calories_formula :
    (∀ (t : Training) (s : ℚ), t.kind = .running → t.get_mean_speed = .ok s →
      t.get_spent_calories = .ok ((18 * s - 20) * t.weight_kg / 1000 * t.duration_m * 60)) ∧
    read_package "RUN" [15000, 1, 75] = .ok ⟨.running, 15000, 1, 75, 0, 0, 0⟩ [] ∧
    Training.get_distance ⟨.running, 15000, 1, 75, 0, 0, 0⟩ = 9.75 ∧
    Training.get_mean_speed ⟨.running, 15000, 1, 75, 0, 0, 0⟩ = .ok 9.75 ∧
    Training.get_spent_calories ⟨.running, 15000, 1, 75, 0, 0, 0⟩ = .ok 699.75 := by
  refine ⟨?_, by decide, ?_, ?_, ?_⟩
  · intro t s hk hs
    simp [Training.get_spent_calories, hk, hs, M_IN_KM, MIN_IN_HOUR,
      exceptBindOk, exceptPureEqOk]
  · simp [Training.get_distance, Training.LEN_STEP, M_IN_KM]
    norm_num
  · simp [Training.get_mean_speed, Training.get_distance, Training.LEN_STEP, M_IN_KM]
    norm_num
  · simp [Training.get_spent_calories, Training.get_mean_speed, Training.get_distance,
      Training.LEN_STEP, M_IN_KM, MIN_IN_HOUR, exceptBindOk, exceptPureEqOk]
    norm_num

/-- C3 witness: the formula part of `running_calories_formula` applied to
the concrete `RUN [15000, 1, 75]` session. -/
theorem running_calories_formula_witness :
    Training.get_spent_calories ⟨.running, 15000, 1, 75, 0, 0, 0⟩
      = .ok ((18 * (9.75 : ℚ) - 20) * 75 / 1000 * 1 * 60) :=
  running_calories_formula.1 ⟨.running, 15000, 1, 75, 0, 0, 0⟩ 9.75 rfl
    (by simp [Training.get_mean_speed, Training.get_distance, Training.LEN_STEP, M_IN_KM]
        norm_num)

/-- C4: every `Swimming` session's calories equal `(meanSpeed + 1.1)·2·w`;
the `SWM [720, 1, 80, 25, 40]` scenario yields mean speed 1.000 km/h and
336.000 kcal. -/
theorem swimming_calories_formula :
    (∀ (t : Training) (s : ℚ), t.kind = .swimming → t.get_mean_speed = .ok s →
      t.get_spent_calories = .ok ((s + 1.1) * 2 * t.weight_kg)) ∧
    read_package "SWM" [720, 1, 80, 25, 40] = .ok ⟨.swimming, 720, 1, 80, 0, 25, 40⟩ [] ∧
    Training.get_mean_speed ⟨.swimming, 720, 1, 80, 0, 25, 40⟩ = .ok 1 ∧
    Training.get_spent_calories ⟨.swimming, 720, 1, 80, 0, 25, 40⟩ = .ok 336 := by
  refine ⟨?_, by decide, ?_, ?_⟩
  · intro t s hk hs
    simp [Training.get_spent_calories, hk, hs, exceptBindOk, exceptPureEqOk]
  · simp [Training.get_mean_speed, M_IN_KM]
    norm_num
  · simp [Training.get_spent_calories, Training.get_mean_speed, M_IN_KM,
      exceptBindOk, exceptPureEqOk]
    norm_num

/-- C4 witness: the formula part of `swimming_calories_formula` applied to
the concrete `SWM [720, 1, 80, 25, 40]` session. -/
theorem swimming_calories_formula_witness :
    Training.get_spent_calories ⟨.swimming, 720, 1, 80, 0, 25, 40⟩
      = .ok (((1 : ℚ) + 1.1) * 2 * 80) :=
  swimming_calories_formula.1 ⟨.swimming, 720, 1, 80, 0, 25, 40⟩ 1 rfl
    (by simp [Training.get_mean_speed, M_IN_KM]; norm_num)

/-- C5: for all three disciplines distance is `actionCount · strideLen / 1000`
with stride 0.65 for `Running`/`SportsWalking` and 1.38 for `Swimming`, and
`Swimming`'s distance never depends on the pool fields. -/
theorem get_distance_stride_formula :
    (∀ t : Training, (t.kind = .running ∨ t.kind = .sportsWalking) →
      t.get_distance = t.action * 0.65 / 1000) ∧
    (∀ t : Training, t.kind = .swimming → t.get_distance = t.action * 1.38 / 1000) ∧
    (∀ (t : Training) (lp cp : ℚ),
      Training.get_distance { t with length_pool := lp, count_pool := cp } = t.get_distance) := by
  refine ⟨?_, ?_, ?_⟩
  · rintro t (hk | hk) <;> simp [Training.get_distance, Training.LEN_STEP, hk, M_IN_KM]
  · intro t hk
    simp [Training.get_distance, Training.LEN_STEP, hk, M_IN_KM]
  · intro t lp cp
    simp [Training.get_distance, Training.LEN_STEP]

/-- C5 witness: `get_distance_stride_formula` at the `RUN [15000, 1, 75]`
and `SWM [720, 1, 80, 25, 40]` sessions. -/
theorem get_distance_stride_formula_witness :
    Training.get_distance ⟨.running, 15000, 1, 75, 0, 0, 0⟩ = 15000 * 0.65 / 1000 ∧
    Training.get_distance ⟨.swimming, 720, 1, 80, 0, 25, 40⟩ = 720 * 1.38 / 1000 :=
  ⟨get_distance_stride_formula.1 ⟨.running, 15000, 1, 75, 0, 0, 0⟩ (Or.inl rfl),
   get_distance_stride_formula.2.1 ⟨.swimming, 720, 1, 80, 0, 25, 40⟩ rfl⟩

/-- C6: `Running` and `SportsWalking` mean speed is `distance / duration`;
`Swimming` mean speed is `poolLength · poolLaps / 1000 / duration` and is
independent of `actionCount`. -/
theorem get_mean_speed_formula :
    (∀ t : Training, (t.kind = .running ∨ t.kind = .sportsWalking) → t.duration_m ≠ 0 →
      t.get_mean_speed = .ok (t.get_distance / t.duration_m)) ∧
    (∀ t : Training, t.kind = .swimming → t.duration_m ≠ 0 →
      t.get_mean_speed = .ok (t.length_pool * t.count_pool / 1000 / t.duration_m)) ∧
    (∀ (t : Training) (a : ℚ), t.kind = .swimming →
      Training.get_mean_speed { t with action := a } = t.get_mean_speed) := by
  refine ⟨?_, ?_, ?_⟩
  · rintro t (hk | hk) hd <;> simp [Training.get_mean_speed, hk, hd]
  · intro t hk hd
    simp [Training.get_mean_speed, hk, hd, M_IN_KM]
  · intro t a hk
    simp [Training.get_mean_speed, hk]

/-- C6 witness: `get_mean_speed_formula` at the `RUN [15000, 1, 75]` and
`SWM [720, 1, 80, 25, 40]` sessions. -/
theorem get_mean_speed_formula_witness :
    Training.get_mean_speed ⟨.running, 15000, 1, 75, 0, 0, 0⟩
      = .ok (Training.get_distance ⟨.running, 15000, 1, 75, 0, 0, 0⟩ / 1) ∧
    Training.get_mean_speed ⟨.swimming, 720, 1, 80, 0, 25, 40⟩ = .ok (25 * 40 / 1000 / 1) ∧
    Training.get_mean_speed ⟨.swimming, 9999, 1, 80, 0, 25, 40⟩
      = Training.get_mean_speed ⟨.swimming, 720, 1, 80, 0, 25, 40⟩ :=
  ⟨get_mean_speed_formula.1 ⟨.running, 15000, 1, 75, 0, 0, 0⟩ (Or.inl rfl) (by norm_num),
   get_mean_speed_formula.2.1 ⟨.swimming, 720, 1, 80, 0, 25, 40⟩ rfl (by norm_num),
   get_mean_speed_formula.2.2 ⟨.swimming, 720, 1, 80, 0, 25, 40⟩ 9999 rfl⟩

/-- C7 counterexample: the rendered report line does not follow the claimed
English template `render_spec` — the module's labels are Russian — shown on
the `Running` scenario's report. -/
theorem get_message_not_english_template :
    InfoMessage.get_message ⟨"Running", 1, 9.75, 9.75, 699.75⟩
      ≠ render_spec ⟨"Running", 1, 9.75, 9.75, 699.75⟩ := by
  have h1 : fmt3 (1 : ℚ) = "1.000" := by
    rw [fmt3_ofInt (1 : ℚ) 1000 (by norm_num)]; decide
  have h2 : fmt3 (9.75 : ℚ) = "9.750" := by
    rw [fmt3_ofInt (9.75 : ℚ) 9750 (by norm_num)]; decide
  have h3 : fmt3 (699.75 : ℚ) = "699.750" := by
    rw [fmt3_ofInt (699.75 : ℚ) 699750 (by norm_num)]; decide
  simp only [InfoMessage.get_message, render_spec, h1, h2, h3]
  decide

/-- C7 (amended): every rendered report is the single fixed-format line with
the module's actual labels — `Тип тренировки: …; Длительность: … ч.;
Дистанция: … км; Ср. скорость: … км/ч; Потрачено ккал: ….` — and each of
the four numeric fields always carries exactly three digits after its
decimal point. -/
theorem get_message_russian_template_three_decimals :
    ∀ m : InfoMessage, ∃ d di s c : String,
      m.get_message = "Тип тренировки: " ++ m.training_type
        ++ "; Длительность: " ++ d ++ " ч.; Дистанция: " ++ di
        ++ " км; Ср. скорость: " ++ s ++ " км/ч; Потрачено ккал: " ++ c ++ "." ∧
      hasThreeDecimals d ∧ hasThreeDecimals di ∧
      hasThreeDecimals s ∧ hasThreeDecimals c :=
  fun m => ⟨fmt3 m.duration, fmt3 m.distance, fmt3 m.speed, fmt3 m.calories, rfl,
    fmt3_hasThreeDecimals _, fmt3_hasThreeDecimals _,
    fmt3_hasThreeDecimals _, fmt3_hasThreeDecimals _⟩

/-- C8: any tag outside `SWM`/`RUN`/`WLK` makes `read_package` raise a
`ValueError` whose message names the offending tag and lists the valid
tags, with nothing printed and no construction attempted (the outcome does
not depend on `data` at all). -/
theorem read_package_unknown_tag_valueError :
    ∀ (tag : String) (data : List ℚ), tag ≠ "SWM" → tag ≠ "RUN" → tag ≠ "WLK" →
      read_package tag data = .raised (.valueError ("Не верный тип тренировки: " ++ tag
        ++ ". Допустимые значения: " ++ "SWM, RUN, WLK" ++ " ")) [] := by
  intro tag data h1 h2 h3
  have e1 : (tag == "SWM") = false := beq_eq_false_iff_ne.mpr h1
  have e2 : (tag == "RUN") = false := beq_eq_false_iff_ne.mpr h2
  have e3 : (tag == "WLK") = false := beq_eq_false_iff_ne.mpr h3
  have hlookup : TRANING_TYPE.lookup tag = none := by
    simp [TRANING_TYPE, List.lookup, e1, e2, e3]
  have hj : String.intercalate ", " (TRANING_TYPE.map Prod.fst) = "SWM, RUN, WLK" := by
    decide
  simp only [read_package, hlookup, hj]

/-- C8 witness: `read_package_unknown_tag_valueError` at
`create("CYC", [100, 1, 70])`. -/
theorem read_package_unknown_tag_valueError_witness :
    read_package "CYC" [100, 1, 70]
      = .raised (.valueError ("Не верный тип тренировки: " ++ "CYC"
        ++ ". Допустимые значения: " ++ "SWM, RUN, WLK" ++ " ")) [] :=
  read_package_unknown_tag_valueError "CYC" [100, 1, 70]
    (by decide) (by decide) (by decide)

/-- C9: on the abstract base class, `get_spent_calories` raises
`NotImplementedError`, and `show_training_info` (which calls it) therefore
also raises instead of returning a report. -/
theorem base_get_spent_calories_not_implemented :
    ∀ t : Training, t.kind = .base →
      t.get_spent_calories = .error .notImplementedError ∧
      ∃ e, t.show_training_info = .error e := by
  intro t hk
  have hcal : t.get_spent_calories = .error .notImplementedError := by
    simp [Training.get_spent_calories, hk]
  refine ⟨hcal, ?_⟩
  cases hs : t.get_mean_speed with
  | error e => exact ⟨e, by simp [Training.show_training_info, hs, exceptBindError]⟩
  | ok s => exact ⟨.notImplementedError,
      by simp [Training.show_training_info, hs, hcal, exceptBindOk, exceptMapError]⟩

/-- C9 witness: `base_get_spent_calories_not_implemented` at
`Training(1, 1, 1)`. -/
theorem base_get_spent_calories_not_implemented_witness :
    Training.get_spent_calories ⟨.base, 1, 1, 1, 0, 0, 0⟩ = .error .notImplementedError ∧
    ∃ e, Training.show_training_info ⟨.base, 1, 1, 1, 0, 0, 0⟩ = .error e :=
  base_get_spent_calories_not_implemented ⟨.base, 1, 1, 1, 0, 0, 0⟩ rfl

/-- C10: the three concrete constructors accept every value tuple of the
right arity — zero or negative measurements included — and with a zero
duration the failure surfaces only later, as `ZeroDivisionError` from
`get_mean_speed` (and hence from `get_spent_calories` and
`show_training_info`). -/
theorem constructors_no_validation :
    (∀ a d w : ℚ, ∃ t, construct .running [a, d, w] = some t) ∧
    (∀ a d w h : ℚ, ∃ t, construct .sportsWalking [a, d, w, h] = some t) ∧
    (∀ a d w lp cp : ℚ, ∃ t, construct .swimming [a, d, w, lp, cp] = some t) ∧
    (∀ t : Training, t.kind ≠ .base → t.duration_m = 0 →
      t.get_mean_speed = .error .zeroDivisionError ∧
      t.get_spent_calories = .error .zeroDivisionError ∧
      t.show_training_info = .error .zeroDivisionError) := by
  refine ⟨fun a d w => ⟨_, rfl⟩, fun a d w h => ⟨_, rfl⟩, fun a d w lp cp => ⟨_, rfl⟩, ?_⟩
  intro t hk hd
  have hs : t.get_mean_speed = .error .zeroDivisionError := by
    unfold Training.get_mean_speed
    cases h : t.kind <;> simp [hd]
  refine ⟨hs, ?_, by simp [Training.show_training_info, hs, exceptBindError]⟩
  unfold Training.get_spent_calories
  cases h : t.kind with
  | base => exact absurd h hk
  | running => simp [hs, exceptBindError]
  | sportsWalking => simp [hs, exceptBindError]
  | swimming => simp [hs, exceptBindError]

/-- C10 witness: `constructors_no_validation` at a `Running` tuple with zero
duration and negative weight. -/
theorem constructors_no_validation_witness :
    (∃ t, construct .running [5, 0, -3] = some t) ∧
    Training.get_mean_speed ⟨.running, 5, 0, -3, 0, 0, 0⟩ = .error .zeroDivisionError ∧
    Training.get_spent_calories ⟨.running, 5, 0, -3, 0, 0, 0⟩ = .error .zeroDivisionError ∧
    Training.show_training_info ⟨.running, 5, 0, -3, 0, 0, 0⟩ = .error .zeroDivisionError :=
  ⟨constructors_no_validation.1 5 0 (-3),
   constructors_no_validation.2.2.2 ⟨.running, 5, 0, -3, 0, 0, 0⟩ (by decide) rfl⟩
